import Mathlib

/-!
# g2o viewer widget (`g2o/apps/g2o_viewer/g2o_qglviewer.cpp`)

A shallow embedding of `G2oQGLViewer`: the member functions become functions
from a viewer state to an outcome, which is either a normal return (new state
and the calls issued to the collaborators, in order) or a failed `assert`.

The collaborators are outside the file and appear as follows.
* The graph and the draw action are externally owned objects: only their
  identity matters to the widget, so a pointer is an `Option` of an address.
* `HyperGraphActionLibrary::instance()->actionByName` is a field of `Env`.
* `applyAction`, the OpenGL display-list calls, `update()` and the Qt signal
  are calls out of the widget: they are recorded as events with their
  arguments (the parameter bag is recorded as it is at the call).
* `assert` comes from `<cassert>`: it aborts on a false condition unless the
  file is compiled with `NDEBUG` (the release build named in the source
  comment), which is the field `Env.ndebug`.
-/

namespace G2oViewer

/-! ## Version check of the preprocessor (lines 24-37) -/

/-- Encoding of a QGLViewer version number, `0xMMmmpp`. -/
def QGLVIEWER_VERSION (major minor patch : Nat) : Nat :=
  major * 0x10000 + minor * 0x100 + patch

/-- Condition of the `#if` on line 27: when true `qglv_real` is `qreal`,
otherwise `float`. -/
def qglv_real_is_qreal (V : Nat) : Bool :=
  decide (((V &&& 0xff0000) >>> 16) ≥ 2) && decide (((V &&& 0x00ff00) >>> 8) ≥ 6)

/-- Condition of the `#if` on line 35, which defines
`QGLVIEWER_DEPRECATED_MOUSEBINDING`. -/
def QGLVIEWER_DEPRECATED_MOUSEBINDING (V : Nat) : Bool :=
  decide (((V &&& 0xff0000) >>> 16) ≥ 2) && decide (((V &&& 0x00ff00) >>> 8) ≥ 5)

/-- The reading of "version (major, minor) is at least 2.6": lexicographic
order on the pair. -/
def versionAtLeast_2_6 (major minor : Nat) : Bool :=
  decide (2 < major) || (decide (major = 2) && decide (6 ≤ minor))

/-! ## Collaborating objects -/

/-- An externally owned graph (`SparseOptimizer`), known by its address. -/
structure SparseOptimizer where
  addr : Nat
  deriving DecidableEq, Repr

/-- A registered action (`HyperGraphElementAction`), known by its address. -/
structure HyperGraphElementAction where
  addr : Nat
  deriving DecidableEq, Repr

/-- Modelled from the spec: the properties a parameter bag can hold
(`g2o/stuff/property.h` is not part of the file). `IntProperty` is the one the
widget reads and writes; the other kinds only matter in that a typed getter
for `IntProperty` does not return them. -/
inductive BaseProperty where
  | intProperty (value : Int)
  | boolProperty (value : Bool)
  | stringProperty (value : String)
  | otherProperty (typeTag : Nat)
  deriving DecidableEq, Repr

/-- Modelled from the spec: the parameter bag (`DrawAction::Parameters`, a
`PropertyMap`), a finite map from names to properties. A name is looked up
from the front, so the first entry of a name is the entry of the map. -/
abbrev PropertyMap := List (String × BaseProperty)

/-- Modelled from the spec: the typed getter `getProperty<IntProperty>(name)`
of the parameter bag: the value of the property found under `name` when it is
an `IntProperty`, null (`none`) when no property has that name or the one
found is of another kind. -/
def getProperty_IntProperty : PropertyMap → String → Option Int
  | [], _ => none
  | (k, p) :: rest, name =>
    if k = name then
      match p with
      | .intProperty v => some v
      | _ => none
    else getProperty_IntProperty rest name

/-- Modelled from the spec: `select_prop->setValue(v)` for the property that
`getProperty<IntProperty>(name)` returned: the entry found under `name` gets
the value `v`, the rest of the bag is untouched. -/
def setValue : PropertyMap → String → Int → PropertyMap
  | [], _, _ => []
  | (k, p) :: rest, name, v =>
    if k = name then (k, .intProperty v) :: rest
    else (k, p) :: setValue rest name v

/-- Second argument of `glNewList`. -/
inductive GLListMode where
  | GL_COMPILE
  | GL_COMPILE_AND_EXECUTE
  deriving DecidableEq, Repr

/-- The camera installed in the widget: the one `QGLViewer` creates, or the
`StandardCamera` of this file with its `_standard` flag. -/
inductive Camera where
  | qglDefault
  | StandardCamera (_standard : Bool)
  deriving DecidableEq, Repr

/-- Calls the widget makes to its collaborators, in the order made. -/
inductive Event where
  | stopSpinning
  | actionByName (name : String)
  | glNewList (list : Nat) (mode : GLListMode)
  | applyAction (graph : SparseOptimizer) (action : HyperGraphElementAction)
      (params : PropertyMap)
  | glEndList
  | glCallList (list : Nat)
  | update
  | propertyChanged
  | QGLViewer_init
  | setBackgroundColor (r g b : Nat)
  | glEnable (cap : String)
  | glShadeModel (mode : String)
  | glBlendFunc (sfactor dfactor : String)
  | setStateFileName_null
  | glGenLists (range : Nat)
  deriving DecidableEq, Repr

/-- What the widget is compiled and linked against. -/
structure Env where
  /-- The action registry, `HyperGraphActionLibrary::instance()->actionByName`. -/
  actionByName : String → Option HyperGraphElementAction
  /-- Whether `NDEBUG` is defined, so that `assert` expands to nothing. -/
  ndebug : Bool

/-- The members of `G2oQGLViewer` and the part of the `QGLViewer` base object
that the file reads or writes. -/
structure G2oQGLViewer where
  graph : Option SparseOptimizer
  _drawActions : Option HyperGraphElementAction
  _drawList : Nat
  _updateDisplay : Bool
  _drawActionParameters : PropertyMap
  /-- Base class: the value `selectedName()` returns. -/
  selectedName : Int
  /-- Base class: set by `setAxisIsDrawn`. -/
  axisIsDrawn : Bool
  /-- Base class: the camera `camera()` returns. -/
  camera : Camera
  deriving DecidableEq, Repr

/-- Result of running a member function. -/
inductive Outcome where
  | returned (state : G2oQGLViewer) (trace : List Event)
  | assertionFailed (trace : List Event)
  deriving DecidableEq, Repr

/-- The calls made, whichever way the function ended. -/
def Outcome.trace : Outcome → List Event
  | .returned _ t => t
  | .assertionFailed t => t

/-- The state after a normal return. -/
def Outcome.state? : Outcome → Option G2oQGLViewer
  | .returned s _ => some s
  | .assertionFailed _ => none

/-! ## Member functions -/

/-- Constructor (lines 91-98). The bag `new DrawAction::Parameters()` creates
and the initial state of the base object are arguments. -/
def G2oQGLViewer.new (params : PropertyMap) (selectedName : Int) (camera : Camera) :
    G2oQGLViewer :=
  { graph := none
    _drawActions := none
    _drawList := 0
    _updateDisplay := true
    _drawActionParameters := params
    selectedName := selectedName
    axisIsDrawn := false
    camera := camera }

/-- Lines 115-118 and 137-140, shared by `draw` and `drawWithNames`:
`if (_drawActions == 0) { _drawActions = ...->actionByName("draw");
assert(_drawActions); }`, continuing after `trace`. -/
def lookupDrawActions (env : Env) (s : G2oQGLViewer) (trace : List Event) : Outcome :=
  match s._drawActions with
  | some _ => .returned s trace
  | none =>
    let s1 := { s with _drawActions := env.actionByName "draw" }
    let trace1 := trace ++ [Event.actionByName "draw"]
    if s1._drawActions.isNone && !env.ndebug then .assertionFailed trace1
    else .returned s1 trace1

/-- The member function `draw` (lines 106-130). -/
def draw (env : Env) (s : G2oQGLViewer) : Outcome :=
  let trace := [Event.stopSpinning]
  match s.graph with
  | none => .returned s trace
  | some g =>
    match lookupDrawActions env s trace with
    | .assertionFailed t => .assertionFailed t
    | .returned s1 t =>
      match s1._drawActions with
      | none => .returned s1 t
      | some a =>
        if s1._updateDisplay then
          .returned { s1 with _updateDisplay := false }
            (t ++ [Event.glNewList s1._drawList .GL_COMPILE_AND_EXECUTE,
                   Event.applyAction g a s1._drawActionParameters,
                   Event.glEndList])
        else
          .returned s1 (t ++ [Event.glCallList s1._drawList])

/-- The member function `drawWithNames` (lines 132-146). -/
def drawWithNames (env : Env) (s : G2oQGLViewer) : Outcome :=
  match s.graph with
  | none => .returned s []
  | some g =>
    match lookupDrawActions env s [] with
    | .assertionFailed t => .assertionFailed t
    | .returned s1 t =>
      match s1._drawActions with
      | none => .returned s1 t
      | some a => .returned s1 (t ++ [Event.applyAction g a s1._drawActionParameters])

/-- The member function `setUpdateDisplay` (lines 238-241). -/
def setUpdateDisplay (s : G2oQGLViewer) (updateDisplay : Bool) : G2oQGLViewer :=
  { s with _updateDisplay := updateDisplay }

/-- The member function `postSelection` (lines 148-184). The argument `point`
is not used by the body. The local `id` is computed and clamped to `-1` as in
the source; the value stored is a fresh call of `selectedName()`. -/
def postSelection (s : G2oQGLViewer) : Outcome :=
  let id : Int := s.selectedName
  let _id : Int := if id < 0 then -1 else id
  match getProperty_IntProperty s._drawActionParameters "SELECTED_ID" with
  | none => .returned s []
  | some _ =>
    let s1 := { s with
      _drawActionParameters := setValue s._drawActionParameters "SELECTED_ID" s.selectedName }
    let s2 := setUpdateDisplay s1 true
    .returned s2 [Event.update, Event.propertyChanged]

/-- Is the event an application of an action? -/
def Event.isApplyAction : Event → Bool
  | .applyAction _ _ _ => true
  | _ => false

/-- Number of action applications in a trace. -/
def applyCount (t : List Event) : Nat := t.countP Event.isApplyAction

/-- The draw action available to a viewer: the cached one, or else the one
registered under the name "draw". -/
def availableDrawAction (env : Env) (s : G2oQGLViewer) : Option HyperGraphElementAction :=
  match s._drawActions with
  | some a => some a
  | none => env.actionByName "draw"

/-- The registry queries a repaint of `s` makes when a graph is set: one for
"draw" when nothing is cached, none otherwise. -/
def registryQueries (s : G2oQGLViewer) : List Event :=
  match s._drawActions with
  | some _ => []
  | none => [Event.actionByName "draw"]

/-! ## Concrete inputs -/

/-- A registry in which "draw" is registered as the action at address 7. -/
def exRegistry : String → Option HyperGraphElementAction :=
  fun name => if name = "draw" then some ⟨7⟩ else none

/-- Release build with the draw action registered. -/
def exEnv : Env := { actionByName := exRegistry, ndebug := true }

/-- Debug build with the draw action registered. -/
def exEnvDebug : Env := { actionByName := exRegistry, ndebug := false }

/-- Release build with an empty registry. -/
def exEnvEmptyRelease : Env := { actionByName := fun _ => none, ndebug := true }

/-- Debug build with an empty registry. -/
def exEnvEmptyDebug : Env := { actionByName := fun _ => none, ndebug := false }

/-- A parameter bag holding `SELECTED_ID` among other properties. -/
def exParams : PropertyMap :=
  [("SHOW", .boolProperty true), ("SELECTED_ID", .intProperty (-1)), ("NAME", .stringProperty "g")]

/-- A parameter bag in which `SELECTED_ID` is not an `IntProperty`. -/
def exParamsNoInt : PropertyMap :=
  [("SHOW", .boolProperty true), ("SELECTED_ID", .stringProperty "none")]

/-- A freshly constructed viewer whose owner has assigned a graph. -/
def exViewer : G2oQGLViewer :=
  { G2oQGLViewer.new exParams (-5) .qglDefault with graph := some ⟨100⟩ }

/-- The same viewer after a repaint: action cached, display list clean. -/
def exViewerClean : G2oQGLViewer :=
  { exViewer with _drawActions := some ⟨7⟩, _updateDisplay := false }

/-! ## The registry lookup -/

theorem lookupDrawActions_available (env : Env) (s : G2oQGLViewer) (t : List Event)
    (a : HyperGraphElementAction) (ha : availableDrawAction env s = some a) :
    lookupDrawActions env s t =
      .returned { s with _drawActions := some a } (t ++ registryQueries s) := by
  obtain ⟨graph, acts, dl, ud, params, sel, axis, cam⟩ := s
  cases acts with
  | some b =>
    simp only [availableDrawAction, Option.some.injEq] at ha
    subst ha
    simp [lookupDrawActions, registryQueries]
  | none =>
    simp only [availableDrawAction] at ha
    simp [lookupDrawActions, registryQueries, ha]

theorem lookupDrawActions_missing (env : Env) (s : G2oQGLViewer) (t : List Event)
    (hc : s._drawActions = none) (hr : env.actionByName "draw" = none) :
    lookupDrawActions env s t =
      if env.ndebug then .returned s (t ++ [Event.actionByName "draw"])
      else .assertionFailed (t ++ [Event.actionByName "draw"]) := by
  obtain ⟨graph, acts, dl, ud, params, sel, axis, cam⟩ := s
  simp only at hc
  subst hc
  cases hn : env.ndebug <;> simp [lookupDrawActions, hr, hn]

theorem draw_available (env : Env) (s : G2oQGLViewer) (g : SparseOptimizer)
    (a : HyperGraphElementAction) (hg : s.graph = some g)
    (ha : availableDrawAction env s = some a) :
    draw env s =
      if s._updateDisplay then
        .returned { s with _drawActions := some a, _updateDisplay := false }
          (Event.stopSpinning :: registryQueries s ++
            [Event.glNewList s._drawList .GL_COMPILE_AND_EXECUTE,
             Event.applyAction g a s._drawActionParameters,
             Event.glEndList])
      else
        .returned { s with _drawActions := some a }
          (Event.stopSpinning :: registryQueries s ++ [Event.glCallList s._drawList]) := by
  unfold draw
  simp only [hg, lookupDrawActions_available env s _ a ha]
  cases hu : s._updateDisplay <;> simp

theorem registryQueries_no_apply (s : G2oQGLViewer) :
    ∀ e ∈ registryQueries s, e = Event.actionByName "draw" := by
  intro e he
  unfold registryQueries at he
  cases h : s._drawActions <;> simp [h] at he
  exact he

/-! ## The parameter bag -/

theorem getProperty_setValue (m : PropertyMap) (name : String) (v : Int)
    (h : (getProperty_IntProperty m name).isSome = true) :
    getProperty_IntProperty (setValue m name v) name = some v := by
  induction m with
  | nil => simp [getProperty_IntProperty] at h
  | cons e rest ih =>
    obtain ⟨k, p⟩ := e
    by_cases hk : k = name
    · simp [setValue, getProperty_IntProperty, hk]
    · simp only [getProperty_IntProperty, hk, if_false] at h
      simp [setValue, getProperty_IntProperty, hk, ih h]

/-! ## Repaint -/

/-- C1: `draw` redraws only when marked dirty. With a graph set and the draw
action available (cached, or registered under "draw"), a dirty viewer applies
the action to the graph exactly once, between `glNewList(_drawList, ...)` and
`glEndList()`, and ends clean; a clean viewer applies nothing, replays the list
with `glCallList(_drawList)`, and stays clean. -/
theorem draw_redraws_only_when_dirty (env : Env) (s : G2oQGLViewer) (g : SparseOptimizer)
    (a : HyperGraphElementAction) (hg : s.graph = some g)
    (ha : availableDrawAction env s = some a) :
    (s._updateDisplay = true →
      draw env s =
        .returned { s with _drawActions := some a, _updateDisplay := false }
          (Event.stopSpinning :: registryQueries s ++
            [Event.glNewList s._drawList .GL_COMPILE_AND_EXECUTE,
             Event.applyAction g a s._drawActionParameters,
             Event.glEndList]) ∧
      applyCount (draw env s).trace = 1) ∧
    (s._updateDisplay = false →
      draw env s =
        .returned { s with _drawActions := some a }
          (Event.stopSpinning :: registryQueries s ++ [Event.glCallList s._drawList]) ∧
      applyCount (draw env s).trace = 0) ∧
    (draw env s).state?.map (fun s1 => s1._updateDisplay) = some false := by
  have hd := draw_available env s g a hg ha
  have hq : (registryQueries s).countP Event.isApplyAction = 0 := by
    unfold registryQueries
    cases s._drawActions <;> simp [Event.isApplyAction]
  refine ⟨?_, ?_, ?_⟩
  · intro hu
    rw [hd]
    simp [hu, Outcome.trace, applyCount, List.countP_cons, List.countP_append, hq,
      Event.isApplyAction]
  · intro hu
    rw [hd]
    simp [hu, Outcome.trace, applyCount, List.countP_cons, List.countP_append, hq,
      Event.isApplyAction]
  · rw [hd]
    cases hu : s._updateDisplay <;> simp [Outcome.state?, hu]

/-- Witness of C1 on a dirty viewer with nothing cached. -/
theorem draw_redraws_only_when_dirty_witness :
    draw exEnv exViewer =
      .returned { exViewer with _drawActions := some ⟨7⟩, _updateDisplay := false }
        [Event.stopSpinning, Event.actionByName "draw",
         Event.glNewList 0 .GL_COMPILE_AND_EXECUTE,
         Event.applyAction ⟨100⟩ ⟨7⟩ exParams,
         Event.glEndList] :=
  ((draw_redraws_only_when_dirty exEnv exViewer ⟨100⟩ ⟨7⟩ rfl rfl).1 rfl).1

/-- C3: with a missing graph the draw is silently skipped. `draw` only stops
the camera spin and `drawWithNames` does nothing: no registry query, no action
applied, no display list compiled or replayed, the state (in particular
`_updateDisplay` and `_drawActions`) unchanged. The freshly constructed viewer
is such a state. -/
theorem draw_skipped_without_graph (env : Env) (s : G2oQGLViewer) (params : PropertyMap)
    (sel : Int) (cam : Camera) (hg : s.graph = none) :
    draw env s = .returned s [Event.stopSpinning] ∧
    drawWithNames env s = .returned s [] ∧
    (G2oQGLViewer.new params sel cam).graph = none ∧
    draw env (G2oQGLViewer.new params sel cam) =
      .returned (G2oQGLViewer.new params sel cam) [Event.stopSpinning] ∧
    drawWithNames env (G2oQGLViewer.new params sel cam) =
      .returned (G2oQGLViewer.new params sel cam) [] := by
  refine ⟨?_, ?_, rfl, rfl, rfl⟩
  · simp [draw, hg]
  · simp [drawWithNames, hg]

/-- Witness of C3 on a viewer that has repainted and then lost its graph. -/
theorem draw_skipped_without_graph_witness :
    draw exEnvDebug { exViewerClean with graph := none } =
      .returned { exViewerClean with graph := none } [Event.stopSpinning] ∧
    drawWithNames exEnvDebug { exViewerClean with graph := none } =
      .returned { exViewerClean with graph := none } [] :=
  have h := draw_skipped_without_graph exEnvDebug { exViewerClean with graph := none }
    exParams 0 .qglDefault rfl
  ⟨h.1, h.2.1⟩

/-! ## Picking -/

/-- C2: `postSelection` forwards the picked object id. Whatever integer `n`
`selectedName()` returns, negative ones included, when the bag holds an
`IntProperty` named "SELECTED_ID" the property holds exactly `n` afterwards,
`_updateDisplay` is true, and `update()` and the signal `propertyChanged` have
been issued; nothing else of the viewer changes. -/
theorem postSelection_forwards_id (s : G2oQGLViewer) (n : Int) (hn : s.selectedName = n)
    (hp : (getProperty_IntProperty s._drawActionParameters "SELECTED_ID").isSome = true) :
    ∃ params,
      postSelection s =
        .returned { s with _drawActionParameters := params, _updateDisplay := true }
          [Event.update, Event.propertyChanged] ∧
      getProperty_IntProperty params "SELECTED_ID" = some n := by
  refine ⟨setValue s._drawActionParameters "SELECTED_ID" n, ?_, getProperty_setValue _ _ _ hp⟩
  obtain ⟨old, hold⟩ := Option.isSome_iff_exists.mp hp
  simp [postSelection, hold, setUpdateDisplay, hn]

/-- Witness of C2 at the picked id `-5`. -/
theorem postSelection_forwards_id_witness :
    ∃ params,
      postSelection exViewer =
        .returned { exViewer with _drawActionParameters := params, _updateDisplay := true }
          [Event.update, Event.propertyChanged] ∧
      getProperty_IntProperty params "SELECTED_ID" = some (-5) :=
  postSelection_forwards_id exViewer (-5) rfl rfl

/-- C8: `postSelection` is a no-op when the bag has no `IntProperty` named
"SELECTED_ID" (no such name, or a property of another kind): whatever id was
picked, the viewer state is unchanged, and neither `update()` nor
`propertyChanged` is issued. -/
theorem postSelection_noop_without_property (s : G2oQGLViewer)
    (hp : getProperty_IntProperty s._drawActionParameters "SELECTED_ID" = none) :
    postSelection s = .returned s [] := by
  simp [postSelection, hp]

/-- Witness of C8 on a bag whose "SELECTED_ID" is a string property. -/
theorem postSelection_noop_without_property_witness :
    postSelection { exViewer with _drawActionParameters := exParamsNoInt } =
      .returned { exViewer with _drawActionParameters := exParamsNoInt } [] :=
  postSelection_noop_without_property { exViewer with _drawActionParameters := exParamsNoInt } rfl

/-! ## Missing action -/

/-- C4, as stated, fails in a debug build: with a graph set, nothing cached
and an empty registry, `assert(_drawActions)` fails in `draw` and in
`drawWithNames` right after the registry query. -/
theorem draw_missing_action_debug_asserts :
    exViewer.graph = some ⟨100⟩ ∧ exViewer._drawActions = none ∧
    exEnvEmptyDebug.actionByName "draw" = none ∧
    draw exEnvEmptyDebug exViewer =
      .assertionFailed [Event.stopSpinning, Event.actionByName "draw"] ∧
    drawWithNames exEnvEmptyDebug exViewer =
      .assertionFailed [Event.actionByName "draw"] := by
  decide

/-- C4 (amended): with a graph set, nothing cached and no action registered
under "draw", a release build (`NDEBUG` defined) skips the draw silently:
`draw` and `drawWithNames` return after the registry query with the state
unchanged, no action applied and no display list compiled or replayed. In a
debug build the assertion after the query fails instead, also before anything
is applied or compiled. -/
theorem draw_missing_action_skipped_in_release (env : Env) (s : G2oQGLViewer)
    (g : SparseOptimizer) (hg : s.graph = some g) (hc : s._drawActions = none)
    (hr : env.actionByName "draw" = none) :
    (env.ndebug = true →
      draw env s = .returned s [Event.stopSpinning, Event.actionByName "draw"] ∧
      drawWithNames env s = .returned s [Event.actionByName "draw"]) ∧
    (env.ndebug = false →
      draw env s = .assertionFailed [Event.stopSpinning, Event.actionByName "draw"] ∧
      drawWithNames env s = .assertionFailed [Event.actionByName "draw"]) := by
  constructor
  · intro hn
    simp [draw, drawWithNames, hg, lookupDrawActions_missing env s _ hc hr, hn, hc]
  · intro hn
    simp [draw, drawWithNames, hg, lookupDrawActions_missing env s _ hc hr, hn]

/-- Witness of C4 (amended) in a release build with an empty registry. -/
theorem draw_missing_action_skipped_in_release_witness :
    draw exEnvEmptyRelease exViewer =
      .returned exViewer [Event.stopSpinning, Event.actionByName "draw"] ∧
    drawWithNames exEnvEmptyRelease exViewer =
      .returned exViewer [Event.actionByName "draw"] :=
  (draw_missing_action_skipped_in_release exEnvEmptyRelease exViewer ⟨100⟩ rfl rfl rfl).1 rfl

/-! ## A pick followed by a repaint -/

/-- C5: a pick forces a real redraw. With a graph set, the draw action
available and an `IntProperty` "SELECTED_ID" in the bag, whatever
`_updateDisplay` was, `postSelection` followed by `draw` compiles the display
list anew, applying the action to the graph with the bag in which
"SELECTED_ID" already holds the picked id, and does not replay the list. -/
theorem pick_forces_redraw (env : Env) (s : G2oQGLViewer) (g : SparseOptimizer)
    (a : HyperGraphElementAction) (hg : s.graph = some g)
    (ha : availableDrawAction env s = some a)
    (hp : (getProperty_IntProperty s._drawActionParameters "SELECTED_ID").isSome = true) :
    ∃ s1 s2 params,
      postSelection s = .returned s1 [Event.update, Event.propertyChanged] ∧
      s1._drawActionParameters = params ∧
      getProperty_IntProperty params "SELECTED_ID" = some s.selectedName ∧
      draw env s1 =
        .returned s2
          (Event.stopSpinning :: registryQueries s ++
            [Event.glNewList s._drawList .GL_COMPILE_AND_EXECUTE,
             Event.applyAction g a params,
             Event.glEndList]) ∧
      s2._updateDisplay = false ∧
      applyCount (draw env s1).trace = 1 ∧
      ∀ l, Event.glCallList l ∉ (draw env s1).trace := by
  obtain ⟨old, hold⟩ := Option.isSome_iff_exists.mp hp
  have hq : ∀ e ∈ registryQueries s, e = Event.actionByName "draw" :=
    registryQueries_no_apply s
  have hc : (registryQueries s).countP Event.isApplyAction = 0 := by
    unfold registryQueries
    cases s._drawActions <;> simp [Event.isApplyAction]
  let s1 : G2oQGLViewer :=
    { s with
      _drawActionParameters := setValue s._drawActionParameters "SELECTED_ID" s.selectedName
      _updateDisplay := true }
  have hd : draw env s1 =
      .returned { s1 with _drawActions := some a, _updateDisplay := false }
        (Event.stopSpinning :: registryQueries s ++
          [Event.glNewList s._drawList .GL_COMPILE_AND_EXECUTE,
           Event.applyAction g a s1._drawActionParameters,
           Event.glEndList]) := by
    rw [draw_available env s1 g a hg ha]
    simp [s1, registryQueries]
  refine ⟨s1, { s1 with _drawActions := some a, _updateDisplay := false },
    setValue s._drawActionParameters "SELECTED_ID" s.selectedName, ?_, rfl,
    getProperty_setValue _ _ _ hp, hd, rfl, ?_, ?_⟩
  · simp [postSelection, hold, setUpdateDisplay, s1]
  · rw [hd]
    simp only [Outcome.trace, applyCount, List.countP_cons, List.countP_append,
      List.countP_nil, hc, Event.isApplyAction]
    rfl
  · intro l hl
    rw [hd] at hl
    simp only [Outcome.trace, List.mem_cons, List.mem_append] at hl
    rcases hl with (hl | hl) | hl
    · cases hl
    · cases hq _ hl
    · simp at hl

/-- Witness of C5 on a clean viewer: the pick of id `-5` makes the next
`draw` compile the list with "SELECTED_ID" at `-5`. -/
theorem pick_forces_redraw_witness :
    ∃ s1 s2 params,
      postSelection exViewerClean = .returned s1 [Event.update, Event.propertyChanged] ∧
      s1._drawActionParameters = params ∧
      getProperty_IntProperty params "SELECTED_ID" = some (-5) ∧
      draw exEnv s1 =
        .returned s2
          [Event.stopSpinning,
           Event.glNewList 0 .GL_COMPILE_AND_EXECUTE,
           Event.applyAction ⟨100⟩ ⟨7⟩ params,
           Event.glEndList] ∧
      s2._updateDisplay = false ∧
      applyCount (draw exEnv s1).trace = 1 ∧
      ∀ l, Event.glCallList l ∉ (draw exEnv s1).trace :=
  pick_forces_redraw exEnv exViewerClean ⟨100⟩ ⟨7⟩ rfl rfl rfl

/-! ## The version check -/

theorem and_shiftRight (a b i : Nat) : (a &&& b) >>> i = (a >>> i) &&& (b >>> i) := by
  apply Nat.eq_of_testBit_eq
  intro j
  simp [Nat.testBit_shiftRight, Nat.testBit_and]

theorem version_major (major minor patch : Nat) (h1 : major < 256) (h2 : minor < 256)
    (h3 : patch < 256) :
    ((QGLVIEWER_VERSION major minor patch) &&& 0xff0000) >>> 16 = major := by
  unfold QGLVIEWER_VERSION
  rw [and_shiftRight]
  have : (0xff0000 : Nat) >>> 16 = 2 ^ 8 - 1 := by decide
  rw [this, Nat.and_pow_two_sub_one_eq_mod, Nat.shiftRight_eq_div_pow]
  omega

theorem version_minor (major minor patch : Nat) (h2 : minor < 256) (h3 : patch < 256) :
    ((QGLVIEWER_VERSION major minor patch) &&& 0x00ff00) >>> 8 = minor := by
  unfold QGLVIEWER_VERSION
  rw [and_shiftRight]
  have : (0x00ff00 : Nat) >>> 8 = 2 ^ 8 - 1 := by decide
  rw [this, Nat.and_pow_two_sub_one_eq_mod, Nat.shiftRight_eq_div_pow]
  omega

/-- What the `#if` on line 27 computes on an encoded version: both the major
number is at least 2 and the minor number is at least 6. -/
theorem qglv_real_is_qreal_eq (major minor patch : Nat) (h1 : major < 256)
    (h2 : minor < 256) (h3 : patch < 256) :
    qglv_real_is_qreal (QGLVIEWER_VERSION major minor patch) =
      (decide (2 ≤ major) && decide (6 ≤ minor)) := by
  unfold qglv_real_is_qreal
  rw [version_major major minor patch h1 h2 h3, version_minor major minor patch h2 h3]

/-- The `#if` on line 27 and the order on versions differ exactly on the
versions with major number 3 or more and minor number below 6. -/
theorem qglv_real_is_qreal_ne_iff (major minor patch : Nat) (h1 : major < 256)
    (h2 : minor < 256) (h3 : patch < 256) :
    qglv_real_is_qreal (QGLVIEWER_VERSION major minor patch) ≠ versionAtLeast_2_6 major minor ↔
      3 ≤ major ∧ minor < 6 := by
  rw [qglv_real_is_qreal_eq major minor patch h1 h2 h3]
  unfold versionAtLeast_2_6
  by_cases ha : 2 ≤ major <;> by_cases hb : 6 ≤ minor <;> by_cases hc : 2 < major <;>
    by_cases hd : major = 2 <;> simp [ha, hb, hc, hd] <;> omega

/-- C6: at version 3.0.0 (`0x030000`) the `#if` on line 27 is false, so
`qglv_real` is `float`, although 3.0 is at least 2.6. -/
theorem qglv_real_version_3_0_0 :
    qglv_real_is_qreal (QGLVIEWER_VERSION 3 0 0) = false ∧ versionAtLeast_2_6 3 0 = true := by
  decide

/-! ## The cached action -/

end G2oViewer
